import Mathlib

/-!
Verification of the custom Next.js server (`server.js`) of the
arbee-biomarine repository: configuration resolution from environment
variables, the per-request error-isolation handler, startup sequencing
around `app.prepare()`, and the signal-triggered graceful-shutdown logic
(`server.close` plus a 10 000 ms forced-exit timer).

The definitions below are a shallow embedding of the JavaScript source:
environment reads become an explicit `Env` record, JavaScript's `||`
default and `parseInt(s, 10)` are modelled as Lean functions, promise
rejection and thrown exceptions become a `JsOutcome` sum, and the
signal/timer/close interleaving of the Node event loop becomes a step
function on an explicit process state.
-/

namespace ArbeeServer

/-- The slice of process-wide environment state read by `server.js`:
`NODE_ENV`, `HOSTNAME` and `PORT`, each possibly unset. -/
structure Env where
  nodeEnv : Option String
  hostnameVar : Option String
  portVar : Option String
deriving DecidableEq, Repr

/-- JavaScript `v || d` for an environment variable `v` (a string or
`undefined`): the default `d` is used when `v` is `undefined` or the empty
string (the only falsy string). -/
def jsOr (v : Option String) (d : String) : String :=
  match v with
  | none => d
  | some s => if s = "" then d else s

/-- Whitespace skipped by JavaScript `parseInt` before the number. -/
def jsWhitespace (c : Char) : Bool :=
  c = ' ' || c = '\t' || c = '\n' || c = '\r'

/-- Numeric value of a list of decimal digit characters. -/
def digitsVal (ds : List Char) : Nat :=
  ds.foldl (fun a c => 10 * a + (c.toNat - 48)) 0

/-- JavaScript `parseInt(s, 10)`: skip leading whitespace, read an optional
sign, then take the longest prefix of decimal digits; the result is `none`
(NaN) when that prefix is empty, and otherwise the signed value of the
prefix.  Trailing non-digit characters are ignored. -/
def parseIntJS (s : String) : Option Int :=
  let cs := s.data.dropWhile jsWhitespace
  let signAndDigits : Int × List Char :=
    match cs with
    | '-' :: rest => (-1, rest)
    | '+' :: rest => (1, rest)
    | _ => (1, cs)
  let ds := signAndDigits.2.takeWhile Char.isDigit
  if ds.isEmpty then none
  else some (signAndDigits.1 * (digitsVal ds : Int))

/-- Source line `const dev = process.env.NODE_ENV !== 'production';`. -/
def dev (env : Env) : Bool :=
  decide (env.nodeEnv ≠ some "production")

/-- Source line `const hostname = process.env.HOSTNAME || '0.0.0.0';`. -/
def hostname (env : Env) : String :=
  jsOr env.hostnameVar "0.0.0.0"

/-- Source line `const port = parseInt(process.env.PORT || '3000', 10);`:
`none` models the NaN result of an unparsable value. -/
def port (env : Env) : Option Int :=
  parseIntJS (jsOr env.portVar "3000")

/-- The runtime mode of the spec's `ServerConfig`. -/
inductive Mode
  | development
  | production
deriving DecidableEq, Repr

/-- The resolved mode: the source only computes `dev`, and every
mode-dependent choice branches on it. -/
def mode (env : Env) : Mode :=
  if dev env then Mode.development else Mode.production

/-- The `hostname` option passed to the `next()` app factory:
`dev ? 'localhost' : hostname`. -/
def nextHostnameArg (env : Env) : String :=
  if dev env then "localhost" else hostname env

/-- The host the listening socket is bound to: `server.listen(port,
hostname, ...)` always passes the module-level `hostname`, in every mode. -/
def listenHost (env : Env) : String :=
  hostname env

/-- Outcome of a JavaScript expression or awaited promise: a value, or a
thrown exception / rejection carrying a message. -/
inductive JsOutcome (α : Type)
  | value (a : α)
  | thrown (e : String)
deriving DecidableEq, Repr

/-- What the request callback wrote to the transport. -/
inductive HandlerResult
  | delegated
  | errorResponse (status : Nat) (body : String)
deriving DecidableEq, Repr

/-- Observable operations of one run of the request callback, in order. -/
inductive HOp
  | parseUrl
  | invokeDelegate
  | logError
  | write500
  | incrInFlight
  | decrInFlight
deriving DecidableEq, Repr

/-- Shallow embedding of the `createServer` request callback together with
its operation trace.  The source is
`try { const parsedUrl = parse(req.url, true); await handle(req, res,
parsedUrl); } catch (err) { console.error(...); res.statusCode = 500;
res.end('Internal Server Error'); }`.
`parseResult` is the outcome of `parse(req.url, true)` and `handleResult`
the outcome of `await handle(...)`; either throwing lands in the catch
block, which writes the 500 response.  The callback performs no other
operations: in particular it touches no in-flight counter (none exists in
the source). -/
def requestHandlerT (parseResult handleResult : JsOutcome Unit) :
    JsOutcome HandlerResult × List HOp :=
  match parseResult with
  | .thrown _ =>
      (.value (.errorResponse 500 "Internal Server Error"),
       [HOp.parseUrl, HOp.logError, HOp.write500])
  | .value _ =>
      match handleResult with
      | .value _ => (.value .delegated, [HOp.parseUrl, HOp.invokeDelegate])
      | .thrown _ =>
          (.value (.errorResponse 500 "Internal Server Error"),
           [HOp.parseUrl, HOp.invokeDelegate, HOp.logError, HOp.write500])

/-- The response-side view of the request callback. -/
def requestHandler (parseResult handleResult : JsOutcome Unit) :
    JsOutcome HandlerResult :=
  (requestHandlerT parseResult handleResult).1

/-- Result of the startup sequence. -/
inductive StartupResult
  | started (host : String) (port : Int)
  | failed (code : Nat)
deriving DecidableEq, Repr

/-- Whether Node's `server.listen` accepts `p` as a port: `none` (NaN) and
values outside `[0, 65535]` make `listen` throw `ERR_SOCKET_BAD_PORT`
(modelled from the Node.js runtime's port validation; `0` is accepted and
binds an OS-assigned ephemeral port). -/
def listenPortOk (p : Option Int) : Bool :=
  match p with
  | none => false
  | some v => decide (0 ≤ v ∧ v ≤ 65535)

/-- Startup sequence of `server.js`: `app.prepare().then(() => {
createServer(...); server.listen(port, hostname, ...) }).catch(err =>
{ console.error(...); process.exit(1) })`.  A rejected `prepare` reaches
the catch and exits 1 before any server exists; a throwing `listen`
(invalid port) also rejects the chain into the same catch; otherwise the
socket is bound to `(hostname, port)`. -/
def startServer (env : Env) (prepareResult : JsOutcome Unit) : StartupResult :=
  match prepareResult with
  | .thrown _ => .failed 1
  | .value _ =>
      match port env with
      | none => .failed 1
      | some p => if 0 ≤ p ∧ p ≤ 65535 then .started (hostname env) p else .failed 1

/-- Process state after the server has started listening, as far as the
shutdown logic observes it: how many times `server.close` was invoked, the
deadlines of the pending `setTimeout(..., 10000)` grace timers (the source
never calls `clearTimeout`, so nothing removes an entry), whether
`process.exit` has run and with which code, the event-loop time at which it
ran, and whether the `Forced shutdown after timeout` message was logged. -/
structure Proc where
  closeCalls : Nat
  timers : List Nat
  exited : Option Nat
  exitTime : Option Nat
  forcedLog : Bool
deriving DecidableEq, Repr

/-- State when `server.listen` has succeeded and no signal has arrived. -/
def procInit : Proc :=
  { closeCalls := 0, timers := [], exited := none, exitTime := none, forcedLog := false }

/-- Events the Node event loop can deliver to this process after startup. -/
inductive Event
  | signal
  | closeComplete
  | timerFire (deadline : Nat)
deriving DecidableEq, Repr

/-- One event delivered at time `now` (milliseconds).  After `process.exit`
no further JavaScript runs, so every event is then a no-op.
`Event.signal` runs the source's `shutdown` function: it calls
`server.close(cb)` and schedules a fresh `setTimeout` for `now + 10000`
that logs and calls `process.exit(1)`.  `Event.closeComplete` is the
`server.close` callback firing once the closed server has no remaining
connections; it calls `process.exit(0)`.  `Event.timerFire d` is a pending
grace timer reaching its deadline `d`. -/
def step (now : Nat) (e : Event) (s : Proc) : Proc :=
  if s.exited.isSome then s
  else
    match e with
    | .signal =>
        { s with closeCalls := s.closeCalls + 1, timers := s.timers ++ [now + 10000] }
    | .closeComplete =>
        if 0 < s.closeCalls then { s with exited := some 0, exitTime := some now } else s
    | .timerFire d =>
        if d ∈ s.timers then
          { s with forcedLog := true, exited := some 1, exitTime := some now }
        else s

/-- The spec's `ShutdownState` view of a process state. -/
inductive ShutdownState
  | running
  | draining
  | terminated
deriving DecidableEq, Repr

/-- Derived shutdown state: `terminated` once `process.exit` ran,
`draining` once `server.close` was invoked, `running` otherwise. -/
def stateOf (s : Proc) : ShutdownState :=
  if s.exited.isSome then ShutdownState.terminated
  else if 0 < s.closeCalls then ShutdownState.draining
  else ShutdownState.running

/-- Execution in which one termination signal arrives at time `t1` and the
drain (the closed server reaching zero open connections) completes at time
`td`: the event loop delivers the signal, the close-completion callback and
the grace-timer expiry in time order, a tie between the drain completing
and the timer deadline being resolved timer-first. -/
def oneSignalRun (t1 td : Nat) : Proc :=
  let s := step t1 Event.signal procInit
  if td < t1 + 10000 then
    step (t1 + 10000) (Event.timerFire (t1 + 10000)) (step td Event.closeComplete s)
  else
    step td Event.closeComplete (step (t1 + 10000) (Event.timerFire (t1 + 10000)) s)

/-- Execution with termination signals at `t1 ≤ t2` and drain completion at
`td`, events again delivered in time order (grace-timer deadlines
`t1 + 10000 ≤ t2 + 10000`, ties resolved timer-first). -/
def twoSignalRun (t1 t2 td : Nat) : Proc :=
  let s := step t2 Event.signal (step t1 Event.signal procInit)
  if td < t1 + 10000 then
    step (t2 + 10000) (Event.timerFire (t2 + 10000))
      (step (t1 + 10000) (Event.timerFire (t1 + 10000)) (step td Event.closeComplete s))
  else if td < t2 + 10000 then
    step (t2 + 10000) (Event.timerFire (t2 + 10000))
      (step td Event.closeComplete (step (t1 + 10000) (Event.timerFire (t1 + 10000)) s))
  else
    step td Event.closeComplete
      (step (t2 + 10000) (Event.timerFire (t2 + 10000))
        (step (t1 + 10000) (Event.timerFire (t1 + 10000)) s))

/-- Helper: a resolved port in `[0, 65535]` makes startup succeed and bind
`(hostname env, p)`. -/
theorem startServer_ok (env : Env) (p : Int) (hp : port env = some p)
    (h0 : 0 ≤ p) (h1 : p ≤ 65535) :
    startServer env (JsOutcome.value ()) = StartupResult.started (hostname env) p := by
  unfold startServer
  rw [hp]
  simp [h0, h1]

/-- Helper: an absent `PORT` resolves to `some 3000`. -/
theorem port_absent (env : Env) (h : env.portVar = none) : port env = some 3000 := by
  unfold port
  rw [h]
  decide

/-- Helper: an empty `PORT` resolves to `some 3000` (JavaScript `||`). -/
theorem port_empty (env : Env) (h : env.portVar = some "") : port env = some 3000 := by
  unfold port
  rw [h]
  decide

/-- C3 counterexample: with `NODE_ENV` unset (the ambiguous/absent case) the
resolved mode is development, not production as the claim states. -/
theorem c3_absent_env_is_development :
    mode ⟨none, none, none⟩ = Mode.development
    ∧ Mode.development ≠ Mode.production := by decide

/-- C3 (amended): the resolved mode is production exactly when `NODE_ENV`
is the literal string `production`; when `NODE_ENV` is absent or holds any
other value, the mode is development. -/
theorem c3_mode_production_iff (env : Env) :
    mode env = Mode.production ↔ env.nodeEnv = some "production" := by
  cases henv : env.nodeEnv with
  | none => simp [mode, dev, henv]
  | some s =>
      by_cases hs : s = "production" <;> simp [mode, dev, henv, hs]

/-- C2 counterexample: in development mode (here `NODE_ENV` unset) with
`HOSTNAME` unset, the host passed to `server.listen` is `0.0.0.0`, not
`localhost`. -/
theorem c2_dev_socket_not_localhost :
    dev ⟨none, none, none⟩ = true
    ∧ listenHost ⟨none, none, none⟩ = "0.0.0.0"
    ∧ ("0.0.0.0" : String) ≠ "localhost" := by decide

/-- C2 (amended): in development mode only the `next()` app factory
receives `localhost`; the listening socket is bound to the same host as in
production mode with the same environment, namely `HOSTNAME` when set and
nonempty and `0.0.0.0` otherwise. -/
theorem c2_dev_bind_host (env : Env) (h : dev env = true) :
    nextHostnameArg env = "localhost"
    ∧ listenHost env = listenHost { env with nodeEnv := some "production" }
    ∧ (env.hostnameVar = none → listenHost env = "0.0.0.0")
    ∧ (∀ s, env.hostnameVar = some s → s ≠ "" → listenHost env = s) := by
  refine ⟨by simp [nextHostnameArg, h], rfl, ?_, ?_⟩
  · intro hn
    simp [listenHost, hostname, jsOr, hn]
  · intro s hs hne
    simp [listenHost, hostname, jsOr, hs, hne]

/-- C2 witness: a concrete development environment with a host override. -/
theorem c2_dev_bind_host_witness :
    dev ⟨none, some "203.0.113.7", none⟩ = true
    ∧ nextHostnameArg ⟨none, some "203.0.113.7", none⟩ = "localhost"
    ∧ listenHost ⟨none, some "203.0.113.7", none⟩ = "203.0.113.7" := by
  refine ⟨by decide, ?_, ?_⟩
  · exact (c2_dev_bind_host ⟨none, some "203.0.113.7", none⟩ (by decide)).1
  · exact (c2_dev_bind_host ⟨none, some "203.0.113.7", none⟩ (by decide)).2.2.2
      "203.0.113.7" rfl (by decide)

/-- C4 counterexample: `PORT=0` parses to `0`, which is outside the claim's
\[1, 65535] range, yet startup does not fail: the socket is bound with port
`0` (an OS-assigned ephemeral port); and `PORT=8080abc` is not an integer
yet binds port `8080` because `parseInt` ignores trailing garbage. -/
theorem c4_out_of_range_port_binds :
    startServer ⟨none, none, some "0"⟩ (JsOutcome.value ())
      = StartupResult.started "0.0.0.0" 0
    ∧ startServer ⟨none, none, some "8080abc"⟩ (JsOutcome.value ())
      = StartupResult.started "0.0.0.0" 8080
    ∧ StartupResult.started ("0.0.0.0" : String) (0 : Int) ≠ StartupResult.failed 1 := by
  decide

/-- C4 (amended): with `prepare` succeeding, an absent `PORT` binds 3000; a
`PORT` whose `parseInt` base-10 value lies in `[0, 65535]` binds that value
(`0` binds an ephemeral port, and trailing non-digits are ignored rather
than fatal); a `PORT` whose `parseInt` value is NaN or outside `[0, 65535]`
makes `server.listen` throw, so startup fails with exit code 1 before any
socket is bound. -/
theorem c4_port_resolution (env : Env) :
    (env.portVar = none →
      startServer env (JsOutcome.value ()) = StartupResult.started (hostname env) 3000)
    ∧ (∀ p : Int, port env = some p → 0 ≤ p → p ≤ 65535 →
      startServer env (JsOutcome.value ()) = StartupResult.started (hostname env) p)
    ∧ (port env = none → startServer env (JsOutcome.value ()) = StartupResult.failed 1)
    ∧ (∀ p : Int, port env = some p → ¬(0 ≤ p ∧ p ≤ 65535) →
      startServer env (JsOutcome.value ()) = StartupResult.failed 1) := by
  refine ⟨?_, ?_, ?_, ?_⟩
  · intro h
    exact startServer_ok env 3000 (port_absent env h) (by norm_num) (by norm_num)
  · intro p hp h0 h1
    exact startServer_ok env p hp h0 h1
  · intro hp
    unfold startServer
    rw [hp]
  · intro p hp hrange
    unfold startServer
    rw [hp]
    simp [hrange]

/-- C4 witness: `PORT=8080` binds port 8080. -/
theorem c4_port_resolution_witness :
    port ⟨none, none, some "8080"⟩ = some 8080
    ∧ startServer ⟨none, none, some "8080"⟩ (JsOutcome.value ())
      = StartupResult.started "0.0.0.0" 8080 := by
  refine ⟨by decide, ?_⟩
  exact (c4_port_resolution ⟨none, none, some "8080"⟩).2.1 8080 (by decide)
    (by decide) (by decide)

/-- C10: a present-but-empty `PORT` is falsy for JavaScript `||`, so it is
treated exactly like an absent `PORT`: the resolved port is the default
3000 and startup binds it rather than failing. -/
theorem c10_empty_port_defaults (env : Env) (h : env.portVar = some "") :
    port env = some 3000
    ∧ startServer env (JsOutcome.value ()) = StartupResult.started (hostname env) 3000 := by
  refine ⟨port_empty env h, ?_⟩
  exact startServer_ok env 3000 (port_empty env h) (by norm_num) (by norm_num)

/-- C10 witness: concrete environment with `PORT` set to the empty string. -/
theorem c10_empty_port_defaults_witness :
    (⟨none, none, some ""⟩ : Env).portVar = some ""
    ∧ port ⟨none, none, some ""⟩ = some 3000 := by
  refine ⟨rfl, ?_⟩
  exact (c10_empty_port_defaults ⟨none, none, some ""⟩ rfl).1

/-- C5: whenever `parse` or the awaited Next.js handler throws, the request
callback writes a 500 response with the generic body; on no input does an
exception escape the callback (the process never crashes), and a whole
sequence of requests — in particular any requests after a failing one — all
receive an outcome. -/
theorem c5_error_isolation :
    (∀ e : String, requestHandler (JsOutcome.value ()) (JsOutcome.thrown e)
      = JsOutcome.value (HandlerResult.errorResponse 500 "Internal Server Error"))
    ∧ (∀ pr hr : JsOutcome Unit, ∀ e : String, requestHandler pr hr ≠ JsOutcome.thrown e)
    ∧ (∀ reqs : List (JsOutcome Unit × JsOutcome Unit),
      (reqs.map fun r => requestHandler r.1 r.2).length = reqs.length) := by
  refine ⟨fun e => rfl, ?_, fun reqs => List.length_map _ _⟩
  intro pr hr e
  cases pr <;> cases hr <;> simp [requestHandler, requestHandlerT]

/-- C8 counterexample: on a successfully delegated request the callback's
trace invokes the delegate but contains no in-flight increment before it
and no decrement after it — the source maintains no in-flight counter. -/
theorem c8_no_register_on_success :
    HOp.invokeDelegate ∈ (requestHandlerT (JsOutcome.value ()) (JsOutcome.value ())).2
    ∧ HOp.incrInFlight ∉ (requestHandlerT (JsOutcome.value ()) (JsOutcome.value ())).2
    ∧ HOp.decrInFlight ∉ (requestHandlerT (JsOutcome.value ()) (JsOutcome.value ())).2 := by
  decide

/-- C8 (amended): on every exit path (success, parse failure, delegate
failure) the request callback performs no in-flight registration or
deregistration at all; draining instead relies on the runtime's
`server.close`, whose callback fires only once all open connections have
ended. -/
theorem c8_no_inflight_ops (pr hr : JsOutcome Unit) :
    HOp.incrInFlight ∉ (requestHandlerT pr hr).2
    ∧ HOp.decrInFlight ∉ (requestHandlerT pr hr).2 := by
  cases pr <;> cases hr <;> simp [requestHandlerT]

/-- C9: a rejected `prepare()` reaches the promise chain's catch handler
and exits with code 1 (never retried, no server created), and conversely a
bound socket can only arise from a successful `prepare()` — so `prepare`
completes before any connection can be accepted. -/
theorem c9_prepare_gate (env : Env) :
    (∀ e : String, startServer env (JsOutcome.thrown e) = StartupResult.failed 1)
    ∧ (∀ (prep : JsOutcome Unit) (h : String) (p : Int),
      startServer env prep = StartupResult.started h p → prep = JsOutcome.value ()) := by
  refine ⟨fun e => rfl, ?_⟩
  intro prep h p hs
  cases prep with
  | value a => cases a; rfl
  | thrown e => simp [startServer] at hs

/-- C9 witness: concrete failed and successful preparations. -/
theorem c9_prepare_gate_witness :
    startServer ⟨none, none, none⟩ (JsOutcome.thrown "missing build artifact")
      = StartupResult.failed 1
    ∧ JsOutcome.value () = JsOutcome.value () := by
  refine ⟨(c9_prepare_gate ⟨none, none, none⟩).1 "missing build artifact", ?_⟩
  exact (c9_prepare_gate ⟨none, none, none⟩).2 (JsOutcome.value ()) "0.0.0.0" 3000 (by decide)

/-- C1 counterexample: after a first signal at time 0 the process is
draining with one `server.close` call and one pending grace timer; a second
signal at time 5 re-runs the close logic (two calls) and schedules an
additional grace timer — it is not a no-op on the close logic or the
timers. -/
theorem c1_second_signal_not_noop :
    (step 0 Event.signal procInit).closeCalls = 1
    ∧ (step 0 Event.signal procInit).timers = [10000]
    ∧ stateOf (step 0 Event.signal procInit) = ShutdownState.draining
    ∧ (step 5 Event.signal (step 0 Event.signal procInit)).closeCalls = 2
    ∧ (step 5 Event.signal (step 0 Event.signal procInit)).timers = [10000, 10005] := by
  decide

/-- C1 (amended): a second termination signal received while draining does
re-invoke `server.close` and does schedule an additional 10 000 ms timer,
but the exit outcome is unchanged relative to receiving only the first
signal: same exit code, same exit time, same forced-shutdown logging —
because the earliest of the first close-completion and the first grace
timer still wins, and after `process.exit` the extra timer never runs. -/
theorem c1_exit_outcome_preserved (t1 t2 td : Nat) (_h12 : t1 ≤ t2)
    (_h2d : t2 < td) (_h2g : t2 < t1 + 10000) :
    (twoSignalRun t1 t2 td).exited = (oneSignalRun t1 td).exited
    ∧ (twoSignalRun t1 t2 td).exitTime = (oneSignalRun t1 td).exitTime
    ∧ (twoSignalRun t1 t2 td).forcedLog = (oneSignalRun t1 td).forcedLog := by
  by_cases hA : td < t1 + 10000
  · simp [oneSignalRun, twoSignalRun, step, procInit, hA]
  · by_cases hB : td < t2 + 10000 <;>
      simp [oneSignalRun, twoSignalRun, step, procInit, hA, hB]

/-- C1 witness: signals at 0 and 5 with the drain completing at 20. -/
theorem c1_exit_outcome_preserved_witness :
    (0 : Nat) ≤ 5 ∧ (5 : Nat) < 20 ∧ (5 : Nat) < 0 + 10000
    ∧ (twoSignalRun 0 5 20).exited = (oneSignalRun 0 20).exited := by
  refine ⟨by decide, by decide, by decide, ?_⟩
  exact (c1_exit_outcome_preserved 0 5 20 (by decide) (by decide) (by decide)).1

/-- C6 counterexample: in a run where the drain completes at time 5, well
before the 10 000 ms grace deadline, the process exits 0 — but the grace
timer is never cancelled: the source has no `clearTimeout`, so the deadline
is still pending at exit (exit merely pre-empts it). -/
theorem c6_timer_never_cancelled :
    (oneSignalRun 0 5).exited = some 0
    ∧ (oneSignalRun 0 5).timers = [10000]
    ∧ (oneSignalRun 0 5).timers ≠ [] := by decide

/-- C6 (amended): when the drain completes strictly before the grace
deadline, the coordinator reaches `Terminated` and the process exits with
status 0 at the drain-completion time, and the forced-shutdown path never
runs; the grace timer is not cancelled — its deadline remains pending —
but it never fires because the process has already exited. -/
theorem c6_drain_before_timer (t1 td : Nat) (_h1 : t1 ≤ td) (h2 : td < t1 + 10000) :
    stateOf (oneSignalRun t1 td) = ShutdownState.terminated
    ∧ (oneSignalRun t1 td).exited = some 0
    ∧ (oneSignalRun t1 td).exitTime = some td
    ∧ (oneSignalRun t1 td).forcedLog = false
    ∧ t1 + 10000 ∈ (oneSignalRun t1 td).timers := by
  simp [oneSignalRun, step, procInit, stateOf, h2]

/-- C6 witness: signal at 0, drain complete at 5. -/
theorem c6_drain_before_timer_witness :
    (0 : Nat) ≤ 5 ∧ (5 : Nat) < 0 + 10000 ∧ (oneSignalRun 0 5).exited = some 0 := by
  refine ⟨by decide, by decide, ?_⟩
  exact (c6_drain_before_timer 0 5 (by decide) (by decide)).2.1

/-- C7: when the drain would only complete strictly after the grace
deadline (signal time plus 10 000 ms), the grace timer fires first: the
forced-shutdown message is logged and the process exits at the deadline
with the non-zero status 1, abandoning the outstanding work. -/
theorem c7_forced_shutdown (t1 td : Nat) (h : t1 + 10000 < td) :
    (oneSignalRun t1 td).forcedLog = true
    ∧ (oneSignalRun t1 td).exited = some 1
    ∧ (oneSignalRun t1 td).exitTime = some (t1 + 10000)
    ∧ stateOf (oneSignalRun t1 td) = ShutdownState.terminated := by
  have hA : ¬ td < t1 + 10000 := by omega
  simp [oneSignalRun, step, procInit, stateOf, hA]

/-- C7 witness: signal at 0, drain not complete until 20000. -/
theorem c7_forced_shutdown_witness :
    (0 : Nat) + 10000 < 20000 ∧ (oneSignalRun 0 20000).exited = some 1 := by
  refine ⟨by decide, ?_⟩
  exact (c7_forced_shutdown 0 20000 (by decide)).2.1

end ArbeeServer
